import Mathlib

/-!
Shallow embedding of `src/readmore.js` (the instance-managed version of the
module: `readmore`, `destroyReadMore`, `hasReadMoreInstance`,
`getReadMoreInstance`, `clearReadMoreCache`, `isStyleCached`,
`isLineHeightCached`, `invalidateLineHeightCache`, `addStyle`,
`getLineHeight`, `countLines`, `ReadMoreInstance`, and the `toggleContent`
closure), together with proofs about the claims of the specification.

Modelling conventions:
* DOM elements are identified by natural numbers; the per-element DOM state
  (class list, `dataset.readmoreLinesEnabled` marker, `id`, presence of a
  parent node) and the layout measurements the code reads (`offsetHeight`,
  `parseInt(getComputedStyle(el).lineHeight, 10)`) live in `ElemState`.
  A `parseInt`/division result of `NaN` is modelled as `none : Option Int`.
* The module-level mutable objects (`CSS_CACHE : Set`,
  `LINE_HEIGHT_CACHE : WeakMap`, `READMORE_INSTANCES : WeakMap`, the style
  elements appended to `document.head`, and the buttons inserted into the
  document) form `SysState`.  WeakMap/Map mutation is explicit state passing.
* `console.error` / `console.warn` diagnostics are returned as a list of the
  logged message strings.
* Nondeterministic inputs of an activation - whether
  `parentNode.insertBefore` throws (a concurrent DOM mutation), and the two
  `Date.now()` reads - are passed in as an `ActEnv` record.
-/

/-- The JavaScript value passed as `targetElement` / to `destroyReadMore`:
`null`/`undefined`, some non-`HTMLElement` value, or an element. -/
inductive JsTarget where
  | nullish
  | nonElement
  | elem (e : Nat)
  deriving DecidableEq

/-- A JS option that the code validates with `typeof x !== 'string'`:
absent (`undefined`), a string, or a non-string value. -/
inductive JsOptStr where
  | undef
  | str (s : String)
  | nonStr
  deriving DecidableEq

/-- A JS option that the code validates with
`typeof x !== 'number' || x < 1 || !Number.isInteger(x)`: absent, an integer
number, a non-integer number (for example `2.5` or `NaN`), or a non-number. -/
inductive JsOptNum where
  | undef
  | num (n : Int)
  | nonIntNum
  | nonNum
  deriving DecidableEq

/-- Per-element DOM and layout state.  `lineHeightPx` is the value
`parseInt(window.getComputedStyle(element).lineHeight, 10)` would produce
(`none` models `NaN`).  `offsetHeight` is `element.offsetHeight`, which is
always a number in a browser.  `dataMarker` models
`element.dataset.readmoreLinesEnabled === '1'`. -/
structure ElemState where
  classes : List String
  dataMarker : Bool
  domId : Option String
  hasParent : Bool
  offsetHeight : Int
  lineHeightPx : Option Int
  deriving DecidableEq

/-- The state of a toggle button created by `readmore`
(`document.createElement('button')` plus the attributes the code sets).
`id` is the node identity (fresh per creation). -/
structure ButtonState where
  id : Nat
  typeAttr : String
  label : String
  classes : List String
  ariaExpanded : String
  ariaControls : String
  role : String
  deriving DecidableEq

/-- The `instanceConfig` record built by `readmore` after defaulting. -/
structure InstanceConfig where
  targetClass : String
  linkClass : String
  readMoreLabel : String
  readLessLabel : String
  linesLimit : Int
  deriving DecidableEq

/-- The `ReadMoreInstance` class: target element, owned button, resolved
config, the event-listener `Map` (listed by event type, in registration
order), and the `isDestroyed` flag. -/
structure ReadMoreInstance where
  target : Nat
  button : ButtonState
  config : InstanceConfig
  listeners : List String
  isDestroyed : Bool
  deriving DecidableEq

/-- The module-level mutable state.
* `instances` is `READMORE_INSTANCES` (a `WeakMap`),
* `cssCache` is `CSS_CACHE` (a `Set` of cache-key strings),
* `headStyles` lists the `<style data-readmore-lines-cache=key>` elements in
  `document.head` as `(key, cssText)` pairs in document order,
* `lineHeightCache` is `LINE_HEIGHT_CACHE` (a `WeakMap` whose stored value
  may itself be the `NaN` of a failed computation, modelled `some none`),
* `buttonsInDoc` lists the node identities of toggle buttons currently
  attached to the document,
* `nextBtnId` provides fresh node identities for `createElement`. -/
structure SysState where
  elems : Nat → ElemState
  instances : List (Nat × ReadMoreInstance)
  cssCache : List String
  headStyles : List (String × String)
  lineHeightCache : List (Nat × Option Int)
  buttonsInDoc : List Nat
  nextBtnId : Nat

/-- `WeakMap.get` / `Map.get`: first (and only, in reachable states)
binding of the key. -/
def wmLookup {α : Type} : List (Nat × α) → Nat → Option α
  | [], _ => none
  | (k', v) :: t, k => if k' = k then some v else wmLookup t k

/-- `WeakMap.set` / `Map.set`: replace an existing binding, else append. -/
def wmSet {α : Type} : List (Nat × α) → Nat → α → List (Nat × α)
  | [], k, v => [(k, v)]
  | (k', v') :: t, k, v =>
    if k' = k then (k, v) :: t else (k', v') :: wmSet t k v

/-- `WeakMap.delete`: remove every binding of the key. -/
def wmDelete {α : Type} : List (Nat × α) → Nat → List (Nat × α)
  | [], _ => []
  | (k', v) :: t, k => if k' = k then wmDelete t k else (k', v) :: wmDelete t k

/-- Number of bindings a key has (used to state "exactly one registry
entry"). -/
def wmCountKey {α : Type} : List (Nat × α) → Nat → Nat
  | [], _ => 0
  | (k', _) :: t, k => (if k' = k then 1 else 0) + wmCountKey t k

/-- `classList.contains` / membership of a token in a class list. -/
def hasClass (c : String) : List String → Bool
  | [] => false
  | x :: t => if x = c then true else hasClass c t

/-- `classList.add`: appends the token unless already present. -/
def classListAdd (c : String) (l : List String) : List String :=
  if hasClass c l then l else l ++ [c]

/-- `classList.remove`: removes the token (every occurrence; class lists
never hold duplicates). -/
def classListRemove (c : String) : List String → List String
  | [] => []
  | x :: t => if x = c then classListRemove c t else x :: classListRemove c t

/-- `classList.toggle`. -/
def classListToggle (c : String) (l : List String) : List String :=
  if hasClass c l then classListRemove c l else classListAdd c l

/-- Membership of a button node identity in the document. -/
def hasNode (k : Nat) : List Nat → Bool
  | [] => false
  | x :: t => if x = k then true else hasNode k t

/-- `parentNode.removeChild(node)`: detaches the node from the document
(node identities are unique, so removing every occurrence is the same). -/
def removeNode (k : Nat) : List Nat → List Nat
  | [] => []
  | x :: t => if x = k then removeNode k t else x :: removeNode k t

/-- `document.head.querySelector(marker=key)` restricted to the style
elements this module inserts: is some head style tagged with the key? -/
def anyKey (k : String) : List (String × String) → Bool
  | [] => false
  | (k', _) :: t => if k' = k then true else anyKey k t

/-- Number of head style fragments tagged with a given cache key (used to
state "exactly one style fragment is materialized"). -/
def numKey (k : String) : List (String × String) → Nat
  | [] => 0
  | (k', _) :: t => (if k' = k then 1 else 0) + numKey k t

/-- Update one element's DOM state, leaving every other element alone. -/
def updateElem (s : SysState) (e : Nat) (f : ElemState → ElemState) : SysState :=
  { s with elems := fun x => if x = e then f (s.elems x) else s.elems x }

/-! ### The cache and measurement layer of `src/readmore.js` -/

/-- `isStyleCached(cacheKey)`: `CSS_CACHE.has(cacheKey)`. -/
def isStyleCached (cacheKey : String) (s : SysState) : Bool :=
  hasClass cacheKey s.cssCache

/-- `isLineHeightCached(element)`: `LINE_HEIGHT_CACHE.has(element)`. -/
def isLineHeightCached (e : Nat) (s : SysState) : Bool :=
  (wmLookup s.lineHeightCache e).isSome

/-- `invalidateLineHeightCache(element)`: `LINE_HEIGHT_CACHE.delete(element)`
(the `if (element)` guard is vacuous here: in the model `e` is an element). -/
def invalidateLineHeightCache (e : Nat) (s : SysState) : SysState :=
  { s with lineHeightCache := wmDelete s.lineHeightCache e }

/-- `clearReadMoreCache()`: removes every `[data-readmore-lines-cache]`
style element from the document head (in the model, every tracked head
style carries that attribute) and clears `CSS_CACHE`. -/
def clearReadMoreCache (s : SysState) : SysState :=
  { s with headStyles := [], cssCache := [] }

/-- `addStyle(styleString, cacheKey)`: skip when the key is in `CSS_CACHE`;
else if a `[data-readmore-lines-cache=cacheKey]` style already exists in the
document, only record the key; else append a tagged style element to
`document.head` and record the key. -/
def addStyle (styleString cacheKey : String) (s : SysState) : SysState :=
  if hasClass cacheKey s.cssCache then s
  else if anyKey cacheKey s.headStyles then
    { s with cssCache := cacheKey :: s.cssCache }
  else
    { s with headStyles := s.headStyles ++ [(cacheKey, styleString)],
             cssCache := cacheKey :: s.cssCache }

/-- `getLineHeight(element)`: return the cached value when
`LINE_HEIGHT_CACHE.has(element)` (even when that cached value is `NaN`);
otherwise compute `parseInt(getComputedStyle(element).lineHeight, 10)` and
cache it - unconditionally, a `NaN` result included. -/
def getLineHeight (e : Nat) (s : SysState) : Option Int × SysState :=
  match wmLookup s.lineHeightCache e with
  | some v => (v, s)
  | none =>
    let lineHeight := (s.elems e).lineHeightPx
    (lineHeight, { s with lineHeightCache := wmSet s.lineHeightCache e lineHeight })

/-- `Math.round(d / lh)` for positive integers `d`, `lh`:
`floor(d / lh + 1 / 2) = (2 * d + lh) / (2 * lh)` in natural division. -/
def jsRound (d lh : Int) : Int :=
  Int.ofNat ((2 * d.toNat + lh.toNat) / (2 * lh.toNat))

/-- The pure arithmetic of `countLines` after the two reads:
`NaN` when the line height is `NaN` or either quantity is non-positive,
else `Math.round(divHeight / lineHeight)`. -/
def lineCalc (divHeight : Int) : Option Int → Option Int
  | none => none
  | some lh => if lh ≤ 0 ∨ divHeight ≤ 0 then none else some (jsRound divHeight lh)

/-- `countLines(element)`: reads `element.offsetHeight` and
`getLineHeight(element)` (which may write the line-height cache), and
returns `NaN` unless both are positive numbers.  The
`element instanceof HTMLElement` guard is vacuous here: the model only
applies `countLines` to elements. -/
def countLines (e : Nat) (s : SysState) : Option Int × SysState :=
  let divHeight := (s.elems e).offsetHeight
  let r := getLineHeight e s
  (lineCalc divHeight r.1, r.2)

/-! ### Instance registry and teardown -/

/-- `hasReadMoreInstance(targetElement)`. -/
def hasReadMoreInstance (e : Nat) (s : SysState) : Bool :=
  (wmLookup s.instances e).isSome

/-- `getReadMoreInstance(targetElement)` (`.get(..) || null`). -/
def getReadMoreInstance (e : Nat) (s : SysState) : Option ReadMoreInstance :=
  wmLookup s.instances e

/-- `ReadMoreInstance.prototype.destroy`: remove the registered listeners,
detach the button from the document when it has a parent, clear the
truncation class and the `readmoreLinesEnabled` dataset marker on the
target, invalidate the target's line-height cache entry, and set
`isDestroyed`.  Returns the mutated instance object together with the
mutated world. -/
def ReadMoreInstance.destroy (inst : ReadMoreInstance) (s : SysState) :
    ReadMoreInstance × SysState :=
  if inst.isDestroyed then (inst, s)
  else
    let s1 :=
      if hasNode inst.button.id s.buttonsInDoc then
        { s with buttonsInDoc := removeNode inst.button.id s.buttonsInDoc }
      else s
    let s2 := updateElem s1 inst.target (fun el =>
      { el with classes := classListRemove inst.config.targetClass el.classes,
                dataMarker := false })
    let s3 := invalidateLineHeightCache inst.target s2
    ({ inst with listeners := [], isDestroyed := true }, s3)

/-- `READMORE_INSTANCES.size === 0` as the JS engine evaluates it:
`READMORE_INSTANCES` is a `WeakMap`, which has no `size` property, so
`.size` is `undefined` and the strict comparison with `0` is `false` for
every registry contents. -/
def weakMapSizeEqZero (_l : List (Nat × ReadMoreInstance)) : Bool := false

/-- `destroyReadMore(targetElement)`: reject non-elements; warn and return
`false` when no instance is registered; otherwise run the instance teardown,
remove the registry binding, run the (dead, see `weakMapSizeEqZero`)
style-cache purge check, and return `true`.  Result:
`(new state, returned boolean, console diagnostics)`. -/
def destroyReadMore (t : JsTarget) (s : SysState) : SysState × Bool × List String :=
  match t with
  | .nullish => (s, false, ["ReadMore: destroyReadMore requires a valid HTMLElement"])
  | .nonElement => (s, false, ["ReadMore: destroyReadMore requires a valid HTMLElement"])
  | .elem e =>
    match wmLookup s.instances e with
    | none => (s, false, ["ReadMore: No readmore instance found for the given element"])
    | some inst =>
      let s1 := (inst.destroy s).2
      let s2 := { s1 with instances := wmDelete s1.instances e }
      let s3 :=
        if weakMapSizeEqZero s2.instances then
          -- `document.head.querySelector('[data-readmore-lines-cache]')`:
          -- truthy exactly when some tagged style element is in the head.
          if s2.headStyles.isEmpty then s2 else clearReadMoreCache s2
        else s2
      (s3, true, [])

/-! ### Widget activation (`readmore`) -/

/-- The `targetElement` validation sequence of `readmore` (source order:
required, must be an `HTMLElement`, must have a parent node), each failure
logging its distinct `console.error` message. -/
def checkTarget (s : SysState) : JsTarget → Except String Nat
  | .nullish =>
    .error "ReadMore: targetElement is required and cannot be null or undefined"
  | .nonElement =>
    .error "ReadMore: targetElement must be a valid HTMLElement"
  | .elem e =>
    if (s.elems e).hasParent then .ok e
    else .error "ReadMore: targetElement must have a parent node to insert the toggle link"

/-- `typeof x !== 'string'` for a provided option. -/
def isNonStr : JsOptStr → Bool
  | .nonStr => true
  | _ => false

/-- The four `typeof option !== 'string'` checks, in source order. -/
def checkStrings (args : JsOptStr × JsOptStr × JsOptStr × JsOptStr) : Option String :=
  if isNonStr args.1 then some "ReadMore: readMoreLabel must be a string"
  else if isNonStr args.2.1 then some "ReadMore: readLessLabel must be a string"
  else if isNonStr args.2.2.1 then some "ReadMore: targetClass must be a string"
  else if isNonStr args.2.2.2 then some "ReadMore: linkClass must be a string"
  else none

/-- `linesLimit !== undefined && (typeof linesLimit !== 'number' ||
linesLimit < 1 || !Number.isInteger(linesLimit))`.  A `NaN` `linesLimit`
is a non-integer number, hence rejected through `!Number.isInteger`. -/
def badLinesLimit : JsOptNum → Bool
  | .undef => false
  | .num n => decide (n < 1)
  | .nonIntNum => true
  | .nonNum => true

/-- The named options of a `readmore({...})` call. -/
structure RMArgs where
  targetElement : JsTarget
  readMoreLabel : JsOptStr
  readLessLabel : JsOptStr
  targetClass : JsOptStr
  linkClass : JsOptStr
  linesLimit : JsOptNum
  deriving DecidableEq

/-- The option validation of `readmore` after the target checks:
`linesLimit` first, then the four string options. -/
def checkOptions (args : RMArgs) : Option String :=
  if badLinesLimit args.linesLimit then
    some "ReadMore: linesLimit must be a positive integer"
  else
    checkStrings (args.readMoreLabel, args.readLessLabel, args.targetClass, args.linkClass)

/-- `value || default` for a validated string option: `undefined` and the
empty string (falsy) resolve to the default.  (The `nonStr` case is
unreachable after validation; it is sent to the default.) -/
def resolveStr (v : JsOptStr) (dflt : String) : String :=
  match v with
  | .str s => if s = "" then dflt else s
  | _ => dflt

/-- `linesLimit || 8` for a validated numeric option (`0` is falsy; the
non-number cases are unreachable after validation and resolve to the
default). -/
def resolveNum (v : JsOptNum) (dflt : Int) : Int :=
  match v with
  | .num n => if n = 0 then dflt else n
  | _ => dflt

/-- The constants `LINES_LIMIT`, `READ_MORE_LINK_CLASS`,
`READ_MORE_TARGET_CLASS`, `READ_MORE_LABEL`, `READ_LESS_LABEL` resolved from
the call's options, bundled as the `instanceConfig` record. -/
def resolveConfig (args : RMArgs) : InstanceConfig :=
  { targetClass := resolveStr args.targetClass "read-more-target",
    linkClass := resolveStr args.linkClass "read-more-link",
    readMoreLabel := resolveStr args.readMoreLabel "Read more...",
    readLessLabel := resolveStr args.readLessLabel "Read less",
    linesLimit := resolveNum args.linesLimit 8 }

/-- `countLines(targetElement) < LINES_LIMIT` with JS comparison semantics:
when `countLines` is `NaN` the comparison is `false` (so the early return
is NOT taken). -/
def ltJs (cl : Option Int) (lim : Int) : Bool :=
  match cl with
  | some n => decide (n < lim)
  | none => false

/-- The environment of one activation: whether
`parentNode.insertBefore` throws (a concurrent external DOM mutation), and
the values of the two `Date.now()` reads (aria-controls fallback, generated
target id). -/
structure ActEnv where
  insertFails : Bool
  now1 : Nat
  now2 : Nat
  deriving DecidableEq

/-- A generated `readmore-content-${Date.now()}` identifier. -/
def genId (t : Nat) : String := "readmore-content-" ++ toString t

/-- The cache key
`` `readmore-lines-styles-${READ_MORE_TARGET_CLASS}-${LINES_LIMIT}` ``. -/
def cssCacheKey (targetClass : String) (limit : Int) : String :=
  "readmore-lines-styles-" ++ targetClass ++ "-" ++ toString limit

/-- The generated truncation rule (the template literal passed to
`addStyle`). -/
def cssBody (targetClass : String) (limit : Int) : String :=
  "\n        ." ++ targetClass ++ " \x7b\n            display: -webkit-box;\n            overflow : hidden;\n            text-overflow: ellipsis;\n            -webkit-line-clamp: " ++ toString limit ++ ";\n            -webkit-box-orient: vertical;\n        \x7d\n    "

/-- The toggle button as `readmore` creates it, before insertion: semantic
`button` element, `READ_MORE_LABEL` text, `READ_MORE_LINK_CLASS`,
`aria-expanded="false"`, `aria-controls` from the target's current id (with
the `Date.now()` fallback), `role="button"`. -/
def mkButton (cfg : InstanceConfig) (e : Nat) (env : ActEnv) (s : SysState) : ButtonState :=
  { id := s.nextBtnId,
    typeAttr := "button",
    label := cfg.readMoreLabel,
    classes := [cfg.linkClass],
    ariaExpanded := "false",
    ariaControls :=
      match (s.elems e).domId with
      | some i => i
      | none => genId env.now1,
    role := "button" }

/-- The instance record `readmore` registers: listeners `click` then
`keydown`, in registration order. -/
def materializeInst (cfg : InstanceConfig) (e : Nat) (env : ActEnv) (s : SysState) :
    ReadMoreInstance :=
  { target := e,
    button := mkButton cfg e env s,
    config := cfg,
    listeners := ["click", "keydown"],
    isDestroyed := false }

/-- The tail of `readmore` after validation, the line gate and the
duplicate check: ensure the truncation style, create the button, assign the
target a generated id when it lacks one, try to insert the button and apply
the truncation class (a thrown insertion error is caught and logged, and
execution continues), register listeners, store the instance in
`READMORE_INSTANCES`, and set the dataset marker. -/
def materialize (cfg : InstanceConfig) (e : Nat) (env : ActEnv) (s1 : SysState) :
    SysState × List String :=
  let s2 := addStyle (cssBody cfg.targetClass cfg.linesLimit)
    (cssCacheKey cfg.targetClass cfg.linesLimit) s1
  let btn := mkButton cfg e env s2
  let s3 := { s2 with nextBtnId := s2.nextBtnId + 1 }
  let s4 :=
    match (s3.elems e).domId with
    | some _ => s3
    | none => updateElem s3 e (fun el => { el with domId := some (genId env.now2) })
  let s5 :=
    if env.insertFails then s4
    else
      updateElem { s4 with buttonsInDoc := btn.id :: s4.buttonsInDoc } e
        (fun el => { el with classes := classListAdd cfg.targetClass el.classes })
  let insLog := if env.insertFails then ["ReadMore: Failed to insert toggle link"] else []
  let inst := materializeInst cfg e env s2
  let s6 := { s5 with instances := wmSet s5.instances e inst }
  let s7 := updateElem s6 e (fun el => { el with dataMarker := true })
  (s7, insLog)

/-- `readmore(options)`: validation (fail fast, one `console.error`, no
state change), default resolution, the `countLines < LINES_LIMIT` early
return (NOT taken when `countLines` is `NaN`), the duplicate-instance
`console.warn` no-op, then materialization. -/
def readmore (args : RMArgs) (env : ActEnv) (s : SysState) : SysState × List String :=
  match checkTarget s args.targetElement with
  | .error msg => (s, [msg])
  | .ok e =>
    match checkOptions args with
    | some msg => (s, [msg])
    | none =>
      let cfg := resolveConfig args
      let r := countLines e s
      if ltJs r.1 cfg.linesLimit then (r.2, [])
      else if (wmLookup r.2.instances e).isSome then
        (r.2, ["ReadMore: Element already has readmore functionality. Use destroyReadMore() first to reinitialize."])
      else materialize cfg e env r.2

/-! ### The toggle closure -/

/-- The DOM the `toggleContent` closure touches: the target's class list
and the toggle button. -/
structure ToggleDom where
  targetClasses : List String
  button : ButtonState
  deriving DecidableEq

/-- The `toggleContent` closure: toggle the truncation class on the target,
set `aria-expanded` to whether the class is now absent, and set the label to
`READ_MORE_LABEL` when the class is present (collapsed) and
`READ_LESS_LABEL` when absent (expanded).  Both the click handler and the
Enter/Space keydown handler call this after `event.preventDefault()`. -/
def toggleContent (cfg : InstanceConfig) (tb : ToggleDom) : ToggleDom :=
  let cls := classListToggle cfg.targetClass tb.targetClasses
  let isExpanded := !hasClass cfg.targetClass cls
  { targetClasses := cls,
    button :=
      { tb.button with
        ariaExpanded := if isExpanded then "true" else "false",
        label := if hasClass cfg.targetClass cls then cfg.readMoreLabel
                 else cfg.readLessLabel } }

/-! ### Helper lemmas about the map, class-list and style primitives -/

theorem wmLookup_wmSet_self {α : Type} (l : List (Nat × α)) (k : Nat) (v : α) :
    wmLookup (wmSet l k v) k = some v := by
  induction l with
  | nil => simp [wmSet, wmLookup]
  | cons hd t ih =>
    obtain ⟨k', v'⟩ := hd
    by_cases hk : k' = k
    · subst hk; simp [wmSet, wmLookup]
    · simp [wmSet, wmLookup, hk, ih]

theorem wmLookup_wmDelete_self {α : Type} (l : List (Nat × α)) (k : Nat) :
    wmLookup (wmDelete l k) k = none := by
  induction l with
  | nil => simp [wmDelete, wmLookup]
  | cons hd t ih =>
    obtain ⟨k', v'⟩ := hd
    by_cases hk : k' = k
    · simp [wmDelete, hk, ih]
    · simp [wmDelete, wmLookup, hk, ih]

theorem wmCountKey_eq_zero {α : Type} {l : List (Nat × α)} {k : Nat}
    (h : wmLookup l k = none) : wmCountKey l k = 0 := by
  induction l with
  | nil => rfl
  | cons hd t ih =>
    obtain ⟨k', v'⟩ := hd
    by_cases hk : k' = k
    · subst hk; simp [wmLookup] at h
    · simp [wmLookup, hk] at h
      simp [wmCountKey, hk, ih h]

theorem wmCountKey_wmSet_of_none {α : Type} {l : List (Nat × α)} {k : Nat} (v : α)
    (h : wmLookup l k = none) : wmCountKey (wmSet l k v) k = 1 := by
  induction l with
  | nil => simp [wmSet, wmCountKey]
  | cons hd t ih =>
    obtain ⟨k', v'⟩ := hd
    by_cases hk : k' = k
    · subst hk; simp [wmLookup] at h
    · simp [wmLookup, hk] at h
      simp [wmSet, wmCountKey, hk, ih h]

theorem hasClass_append (c : String) (l₁ l₂ : List String) :
    hasClass c (l₁ ++ l₂) = (hasClass c l₁ || hasClass c l₂) := by
  induction l₁ with
  | nil => simp [hasClass]
  | cons x t ih =>
    by_cases hx : x = c
    · simp [hasClass, hx]
    · simp [hasClass, hx, ih]

theorem hasClass_single_self (c : String) : hasClass c [c] = true := by
  simp [hasClass]

theorem hasClass_classListAdd_self (c : String) (l : List String) :
    hasClass c (classListAdd c l) = true := by
  unfold classListAdd
  by_cases h : hasClass c l
  · simp [h]
  · simp [h, hasClass_append, hasClass_single_self]

theorem hasClass_classListRemove_self (c : String) (l : List String) :
    hasClass c (classListRemove c l) = false := by
  induction l with
  | nil => rfl
  | cons x t ih =>
    by_cases hx : x = c
    · simp [classListRemove, hx, ih]
    · simp [classListRemove, hasClass, hx, ih]

theorem classListRemove_of_not_has {c : String} {l : List String}
    (h : hasClass c l = false) : classListRemove c l = l := by
  induction l with
  | nil => rfl
  | cons x t ih =>
    by_cases hx : x = c
    · simp [hasClass, hx] at h
    · simp [hasClass, hx] at h
      simp [classListRemove, hx, ih h]

theorem classListRemove_append (c : String) (l₁ l₂ : List String) :
    classListRemove c (l₁ ++ l₂) = classListRemove c l₁ ++ classListRemove c l₂ := by
  induction l₁ with
  | nil => rfl
  | cons x t ih =>
    by_cases hx : x = c
    · simp [classListRemove, hx, ih]
    · simp [classListRemove, hx, ih]

theorem hasNode_removeNode_self (k : Nat) (l : List Nat) :
    hasNode k (removeNode k l) = false := by
  induction l with
  | nil => rfl
  | cons x t ih =>
    by_cases hx : x = k
    · simp [removeNode, hx, ih]
    · simp [removeNode, hasNode, hx, ih]

theorem numKey_append (k : String) (l₁ l₂ : List (String × String)) :
    numKey k (l₁ ++ l₂) = numKey k l₁ + numKey k l₂ := by
  induction l₁ with
  | nil => simp [numKey]
  | cons hd t ih =>
    obtain ⟨k', b⟩ := hd
    simp [numKey, ih, Nat.add_assoc]

theorem anyKey_eq_false_of_numKey {k : String} {l : List (String × String)}
    (h : numKey k l = 0) : anyKey k l = false := by
  induction l with
  | nil => rfl
  | cons hd t ih =>
    obtain ⟨k', b⟩ := hd
    by_cases hk : k' = k
    · simp [numKey, hk] at h
    · simp [numKey, hk] at h
      simp [anyKey, hk, ih h]

/-! ### Helper lemmas about `addStyle`, `getLineHeight`, `countLines`,
`updateElem` -/

theorem addStyle_instances (b k : String) (s : SysState) :
    (addStyle b k s).instances = s.instances := by
  unfold addStyle
  split
  · rfl
  · split <;> rfl

theorem addStyle_elems (b k : String) (s : SysState) :
    (addStyle b k s).elems = s.elems := by
  unfold addStyle
  split
  · rfl
  · split <;> rfl

theorem addStyle_lineHeightCache (b k : String) (s : SysState) :
    (addStyle b k s).lineHeightCache = s.lineHeightCache := by
  unfold addStyle
  split
  · rfl
  · split <;> rfl

theorem addStyle_buttonsInDoc (b k : String) (s : SysState) :
    (addStyle b k s).buttonsInDoc = s.buttonsInDoc := by
  unfold addStyle
  split
  · rfl
  · split <;> rfl

theorem addStyle_nextBtnId (b k : String) (s : SysState) :
    (addStyle b k s).nextBtnId = s.nextBtnId := by
  unfold addStyle
  split
  · rfl
  · split <;> rfl

theorem addStyle_cached {k : String} (b : String) {s : SysState}
    (h : hasClass k s.cssCache = true) : addStyle b k s = s := by
  unfold addStyle
  simp [h]

theorem hasClass_addStyle_self (b k : String) (s : SysState) :
    hasClass k (addStyle b k s).cssCache = true := by
  unfold addStyle
  split
  · next h => exact h
  · split <;> simp [hasClass]

theorem hasClass_addStyle_mono {c : String} (b k : String) {s : SysState}
    (h : hasClass c s.cssCache = true) :
    hasClass c (addStyle b k s).cssCache = true := by
  unfold addStyle
  split
  · exact h
  · split <;>
    · by_cases hk : k = c
      · simp [hasClass, hk]
      · simp [hasClass, hk, h]

theorem numKey_addStyle_of_ne {c k : String} (b : String) (s : SysState)
    (hne : ¬ k = c) :
    numKey c (addStyle b k s).headStyles = numKey c s.headStyles := by
  unfold addStyle
  split
  · rfl
  · split
    · rfl
    · simp [numKey_append, numKey, hne]

theorem numKey_addStyle_le_one {k : String} (b : String) {s : SysState}
    (h1 : hasClass k s.cssCache = true) (h2 : numKey k s.headStyles = 1) :
    hasClass k (addStyle b k s).cssCache = true ∧
      numKey k (addStyle b k s).headStyles = 1 := by
  rw [addStyle_cached b h1]
  exact ⟨h1, h2⟩

theorem getLineHeight_hit {s : SysState} {e : Nat} {v : Option Int}
    (h : wmLookup s.lineHeightCache e = some v) : getLineHeight e s = (v, s) := by
  unfold getLineHeight
  rw [h]

theorem getLineHeight_miss {s : SysState} {e : Nat}
    (h : wmLookup s.lineHeightCache e = none) :
    getLineHeight e s = ((s.elems e).lineHeightPx,
      { s with lineHeightCache := wmSet s.lineHeightCache e ((s.elems e).lineHeightPx) }) := by
  unfold getLineHeight
  rw [h]

theorem getLineHeight_snd_instances (e : Nat) (s : SysState) :
    (getLineHeight e s).2.instances = s.instances := by
  unfold getLineHeight
  cases h : wmLookup s.lineHeightCache e <;> rfl

theorem getLineHeight_snd_elems (e : Nat) (s : SysState) :
    (getLineHeight e s).2.elems = s.elems := by
  unfold getLineHeight
  cases h : wmLookup s.lineHeightCache e <;> rfl

theorem getLineHeight_snd_cssCache (e : Nat) (s : SysState) :
    (getLineHeight e s).2.cssCache = s.cssCache := by
  unfold getLineHeight
  cases h : wmLookup s.lineHeightCache e <;> rfl

theorem getLineHeight_snd_headStyles (e : Nat) (s : SysState) :
    (getLineHeight e s).2.headStyles = s.headStyles := by
  unfold getLineHeight
  cases h : wmLookup s.lineHeightCache e <;> rfl

theorem getLineHeight_snd_buttonsInDoc (e : Nat) (s : SysState) :
    (getLineHeight e s).2.buttonsInDoc = s.buttonsInDoc := by
  unfold getLineHeight
  cases h : wmLookup s.lineHeightCache e <;> rfl

theorem getLineHeight_snd_nextBtnId (e : Nat) (s : SysState) :
    (getLineHeight e s).2.nextBtnId = s.nextBtnId := by
  unfold getLineHeight
  cases h : wmLookup s.lineHeightCache e <;> rfl

theorem countLines_snd (e : Nat) (s : SysState) :
    (countLines e s).2 = (getLineHeight e s).2 := rfl

theorem countLines_fst (e : Nat) (s : SysState) :
    (countLines e s).1 = lineCalc (s.elems e).offsetHeight (getLineHeight e s).1 := rfl

theorem updateElem_instances (s : SysState) (e : Nat) (f : ElemState → ElemState) :
    (updateElem s e f).instances = s.instances := rfl

theorem updateElem_elems_self (s : SysState) (e : Nat) (f : ElemState → ElemState) :
    (updateElem s e f).elems e = f (s.elems e) := by
  unfold updateElem
  simp

theorem updateElem_elems_ne {x e : Nat} (s : SysState) (f : ElemState → ElemState)
    (h : ¬ x = e) : (updateElem s e f).elems x = s.elems x := by
  unfold updateElem
  simp [h]

/-! ### Helper lemmas about `materialize` -/

theorem materialize_log (cfg : InstanceConfig) (e : Nat) (env : ActEnv) (s1 : SysState) :
    (materialize cfg e env s1).2 =
      if env.insertFails then ["ReadMore: Failed to insert toggle link"] else [] := rfl

theorem materialize_instances (cfg : InstanceConfig) (e : Nat) (env : ActEnv) (s1 : SysState) :
    (materialize cfg e env s1).1.instances =
      wmSet s1.instances e (materializeInst cfg e env
        (addStyle (cssBody cfg.targetClass cfg.linesLimit)
          (cssCacheKey cfg.targetClass cfg.linesLimit) s1)) := by
  unfold materialize
  simp only [updateElem]
  split <;> split <;> simp [addStyle_instances]

theorem materialize_lookup (cfg : InstanceConfig) (e : Nat) (env : ActEnv) (s1 : SysState) :
    wmLookup (materialize cfg e env s1).1.instances e =
      some (materializeInst cfg e env
        (addStyle (cssBody cfg.targetClass cfg.linesLimit)
          (cssCacheKey cfg.targetClass cfg.linesLimit) s1)) := by
  rw [materialize_instances]
  exact wmLookup_wmSet_self _ _ _

theorem materialize_cssCache (cfg : InstanceConfig) (e : Nat) (env : ActEnv) (s1 : SysState) :
    (materialize cfg e env s1).1.cssCache =
      (addStyle (cssBody cfg.targetClass cfg.linesLimit)
        (cssCacheKey cfg.targetClass cfg.linesLimit) s1).cssCache := by
  unfold materialize
  simp only [updateElem]
  split <;> split <;> rfl

theorem materialize_headStyles (cfg : InstanceConfig) (e : Nat) (env : ActEnv) (s1 : SysState) :
    (materialize cfg e env s1).1.headStyles =
      (addStyle (cssBody cfg.targetClass cfg.linesLimit)
        (cssCacheKey cfg.targetClass cfg.linesLimit) s1).headStyles := by
  unfold materialize
  simp only [updateElem]
  split <;> split <;> rfl

theorem materialize_lineHeightCache (cfg : InstanceConfig) (e : Nat) (env : ActEnv)
    (s1 : SysState) :
    (materialize cfg e env s1).1.lineHeightCache = s1.lineHeightCache := by
  unfold materialize
  simp only [updateElem]
  split <;> split <;> simp [addStyle_lineHeightCache]

theorem materialize_buttonsInDoc_ok (cfg : InstanceConfig) (e : Nat) {env : ActEnv}
    (s1 : SysState) (h : env.insertFails = false) :
    (materialize cfg e env s1).1.buttonsInDoc = s1.nextBtnId :: s1.buttonsInDoc := by
  unfold materialize
  simp only [updateElem, h, mkButton]
  split
  · simp_all
  · split <;> simp [addStyle_buttonsInDoc, addStyle_nextBtnId]

theorem materialize_buttonsInDoc_fail (cfg : InstanceConfig) (e : Nat) {env : ActEnv}
    (s1 : SysState) (h : env.insertFails = true) :
    (materialize cfg e env s1).1.buttonsInDoc = s1.buttonsInDoc := by
  unfold materialize
  simp only [updateElem, h]
  split
  · split <;> simp [addStyle_buttonsInDoc]
  · simp_all

theorem materialize_marker (cfg : InstanceConfig) (e : Nat) (env : ActEnv) (s1 : SysState) :
    ((materialize cfg e env s1).1.elems e).dataMarker = true := by
  unfold materialize
  simp only [updateElem_elems_self]

theorem materialize_classes_ok (cfg : InstanceConfig) (e : Nat) {env : ActEnv}
    (s1 : SysState) (h : env.insertFails = false) :
    ((materialize cfg e env s1).1.elems e).classes =
      classListAdd cfg.targetClass ((s1.elems e).classes) := by
  unfold materialize
  simp only [updateElem_elems_self, h]
  split
  · simp_all
  · split <;> simp [updateElem_elems_self, addStyle_elems]

theorem materialize_classes_fail (cfg : InstanceConfig) (e : Nat) {env : ActEnv}
    (s1 : SysState) (h : env.insertFails = true) :
    ((materialize cfg e env s1).1.elems e).classes = (s1.elems e).classes := by
  unfold materialize
  simp only [updateElem_elems_self, h]
  split
  · split <;> simp [updateElem_elems_self, addStyle_elems]
  · simp_all

theorem materialize_hasParent (cfg : InstanceConfig) (e x : Nat) (env : ActEnv)
    (s1 : SysState) :
    ((materialize cfg e env s1).1.elems x).hasParent = ((s1.elems x).hasParent) := by
  unfold materialize
  by_cases hx : x = e
  · subst hx
    simp only [updateElem_elems_self]
    split <;> split <;> simp [updateElem_elems_self, addStyle_elems]
  · simp only [updateElem_elems_ne, hx, not_false_eq_true]
    split <;> split <;>
      simp [updateElem_elems_ne, hx, not_false_eq_true, addStyle_elems]

theorem materialize_offsetHeight (cfg : InstanceConfig) (e x : Nat) (env : ActEnv)
    (s1 : SysState) :
    ((materialize cfg e env s1).1.elems x).offsetHeight = ((s1.elems x).offsetHeight) := by
  unfold materialize
  by_cases hx : x = e
  · subst hx
    simp only [updateElem_elems_self]
    split <;> split <;> simp [updateElem_elems_self, addStyle_elems]
  · simp only [updateElem_elems_ne, hx, not_false_eq_true]
    split <;> split <;>
      simp [updateElem_elems_ne, hx, not_false_eq_true, addStyle_elems]

theorem materialize_lineHeightPx (cfg : InstanceConfig) (e x : Nat) (env : ActEnv)
    (s1 : SysState) :
    ((materialize cfg e env s1).1.elems x).lineHeightPx = ((s1.elems x).lineHeightPx) := by
  unfold materialize
  by_cases hx : x = e
  · subst hx
    simp only [updateElem_elems_self]
    split <;> split <;> simp [updateElem_elems_self, addStyle_elems]
  · simp only [updateElem_elems_ne, hx, not_false_eq_true]
    split <;> split <;>
      simp [updateElem_elems_ne, hx, not_false_eq_true, addStyle_elems]

theorem materializeInst_config (cfg : InstanceConfig) (e : Nat) (env : ActEnv) (s : SysState) :
    (materializeInst cfg e env s).config = cfg := rfl

theorem materializeInst_label (cfg : InstanceConfig) (e : Nat) (env : ActEnv) (s : SysState) :
    (materializeInst cfg e env s).button.label = cfg.readMoreLabel := rfl

/-! ### The validated, gate-passing run of `readmore` -/

theorem countLines_snd_instances (e : Nat) (s : SysState) :
    (countLines e s).2.instances = s.instances := by
  rw [countLines_snd]; exact getLineHeight_snd_instances e s

theorem readmore_run (s : SysState) (args : RMArgs) (env : ActEnv) (e : Nat)
    (ht : args.targetElement = JsTarget.elem e)
    (hp : (s.elems e).hasParent = true)
    (ho : checkOptions args = none)
    (hgate : ltJs (countLines e s).1 (resolveConfig args).linesLimit = false)
    (hni : wmLookup s.instances e = none) :
    readmore args env s = materialize (resolveConfig args) e env (countLines e s).2 := by
  unfold readmore
  rw [ht]
  unfold checkTarget
  simp only [hp, if_true, ho, hgate, countLines_snd_instances, hni, Option.isSome_none,
    Bool.false_eq_true, if_false]

/-! ### Concrete fixtures -/

/-- An element with a parent, an id, a 160px box and a 16px line height
(so `countLines` = 10, above the default limit of 8). -/
def baseElem : ElemState :=
  { classes := [], dataMarker := false, domId := some "content",
    hasParent := true, offsetHeight := 160, lineHeightPx := some 16 }

/-- A fresh page whose every element measures like `baseElem`. -/
def measuredState : SysState :=
  { elems := fun _ => baseElem, instances := [], cssCache := [], headStyles := [],
    lineHeightCache := [], buttonsInDoc := [], nextBtnId := 0 }

/-- A fresh page where line-height computation fails
(`parseInt(...) = NaN`) on every element. -/
def unknownState : SysState :=
  { measuredState with elems := fun _ => { baseElem with lineHeightPx := none } }

/-- A `readmore` call on an element with every option left `undefined`. -/
def defaultArgsFor (e : Nat) : RMArgs :=
  { targetElement := .elem e, readMoreLabel := .undef, readLessLabel := .undef,
    targetClass := .undef, linkClass := .undef, linesLimit := .undef }

/-- An activation environment in which `insertBefore` succeeds. -/
def okEnv : ActEnv := { insertFails := false, now1 := 11, now2 := 11 }

/-- An activation environment in which `insertBefore` throws. -/
def failEnv : ActEnv := { insertFails := true, now1 := 11, now2 := 11 }

/-! ### C1 -/

/-- C1 (code bug): activate one element with the default configuration and
then destroy it, emptying the registry.  The claimed style-cache purge does
not happen: `destroyReadMore` returns `true` and the registry is empty, yet
the materialized style fragment is still in the document head and its
fingerprint is still recorded in `CSS_CACHE`, because the purge condition
`READMORE_INSTANCES.size === 0` compares the `undefined` `size` of a
`WeakMap` with `0` and is never true (`weakMapSizeEqZero`). -/
theorem C1_style_cache_not_purged :
    (destroyReadMore (JsTarget.elem 0) (readmore (defaultArgsFor 0) okEnv measuredState).1).2.1
        = true ∧
    (destroyReadMore (JsTarget.elem 0) (readmore (defaultArgsFor 0) okEnv measuredState).1).1.instances
        = [] ∧
    isStyleCached (cssCacheKey "read-more-target" 8)
        (destroyReadMore (JsTarget.elem 0) (readmore (defaultArgsFor 0) okEnv measuredState).1).1
        = true ∧
    (destroyReadMore (JsTarget.elem 0) (readmore (defaultArgsFor 0) okEnv measuredState).1).1.headStyles
        ≠ [] := by
  refine ⟨rfl, rfl, rfl, ?_⟩
  decide

/-! ### C2 -/

/-- C2 counterexample: on an element whose line estimate is unknown
(`countLines` is `NaN`), `readmore` does NOT return with no side effects:
the comparison `NaN < LINES_LIMIT` is `false`, so activation proceeds - a
style fragment is inserted, the truncation class and the marker attribute
are added, and a registry entry is created. -/
theorem C2_counterexample :
    (countLines 0 unknownState).1 = none ∧
    hasReadMoreInstance 0 (readmore (defaultArgsFor 0) okEnv unknownState).1 = true ∧
    (readmore (defaultArgsFor 0) okEnv unknownState).1.headStyles ≠ [] ∧
    hasClass "read-more-target"
        ((readmore (defaultArgsFor 0) okEnv unknownState).1.elems 0).classes = true ∧
    ((readmore (defaultArgsFor 0) okEnv unknownState).1.elems 0).dataMarker = true := by
  refine ⟨rfl, rfl, ?_, rfl, rfl⟩
  decide

/-! ### C3 -/

/-- C3 counterexample: when the line-height computation fails,
`getLineHeight` returns the unknown sentinel AND stores it in
`LINE_HEIGHT_CACHE` (`isLineHeightCached` becomes true); a subsequent call
does not re-attempt the computation - even after the element's line height
becomes measurable (16px), the cached `NaN` is returned. -/
theorem C3_counterexample :
    (getLineHeight 0 unknownState).1 = none ∧
    isLineHeightCached 0 (getLineHeight 0 unknownState).2 = true ∧
    (getLineHeight 0 (updateElem (getLineHeight 0 unknownState).2 0
        (fun el => { el with lineHeightPx := some 16 }))).1 = none := by
  refine ⟨rfl, rfl, rfl⟩

/-! ### C4 -/

/-- C4 counterexample: a valid activation in which inserting the control
fails.  The failure is caught and reported on the diagnostic channel, but a
partially-registered instance IS left behind: the registry has an entry for
the target after the failed activation. -/
theorem C4_counterexample :
    (readmore (defaultArgsFor 0) failEnv measuredState).2
        = ["ReadMore: Failed to insert toggle link"] ∧
    hasReadMoreInstance 0 (readmore (defaultArgsFor 0) failEnv measuredState).1 = true := by
  refine ⟨rfl, rfl⟩

theorem updateElem_lineHeightCache (s : SysState) (e : Nat) (f : ElemState → ElemState) :
    (updateElem s e f).lineHeightCache = s.lineHeightCache := rfl

/-- C2 (amended): when the target's line estimate is unknown, `readmore`
does NOT no-op - it proceeds with the full activation: the style fingerprint
is cached, a control button is inserted, the truncation class and dataset
marker are applied, and a registry entry is created. -/
theorem C2_unknown_estimate_proceeds (s : SysState) (args : RMArgs) (env : ActEnv) (e : Nat)
    (ht : args.targetElement = JsTarget.elem e)
    (hp : (s.elems e).hasParent = true)
    (ho : checkOptions args = none)
    (hcl : (countLines e s).1 = none)
    (hni : wmLookup s.instances e = none)
    (hins : env.insertFails = false) :
    hasReadMoreInstance e (readmore args env s).1 = true ∧
    isStyleCached (cssCacheKey (resolveConfig args).targetClass (resolveConfig args).linesLimit)
      (readmore args env s).1 = true ∧
    (readmore args env s).1.buttonsInDoc = s.nextBtnId :: s.buttonsInDoc ∧
    hasClass (resolveConfig args).targetClass ((readmore args env s).1.elems e).classes = true ∧
    ((readmore args env s).1.elems e).dataMarker = true := by
  have hgate : ltJs (countLines e s).1 (resolveConfig args).linesLimit = false := by
    rw [hcl]; rfl
  have hr := readmore_run s args env e ht hp ho hgate hni
  rw [hr]
  refine ⟨?_, ?_, ?_, ?_, ?_⟩
  · unfold hasReadMoreInstance
    rw [materialize_lookup]
    rfl
  · unfold isStyleCached
    rw [materialize_cssCache]
    exact hasClass_addStyle_self _ _ _
  · rw [materialize_buttonsInDoc_ok _ _ _ hins, countLines_snd,
      getLineHeight_snd_nextBtnId, getLineHeight_snd_buttonsInDoc]
  · rw [materialize_classes_ok _ _ _ hins]
    exact hasClass_classListAdd_self _ _
  · exact materialize_marker _ _ _ _

/-- C3 (amended): a failed line-height computation IS retained in the
cache: `getLineHeight` returns the unknown sentinel and stores it, a later
call returns the cached unknown without re-attempting the computation (even
if the element's computed line height has changed to `v`), and only after
`invalidateLineHeightCache` does a call re-attempt and see `v`. -/
theorem C3_unknown_is_cached (s : SysState) (e : Nat) (v : Option Int)
    (hnc : wmLookup s.lineHeightCache e = none)
    (hun : (s.elems e).lineHeightPx = none) :
    (getLineHeight e s).1 = none ∧
    wmLookup (getLineHeight e s).2.lineHeightCache e = some none ∧
    (getLineHeight e (updateElem (getLineHeight e s).2 e
        (fun el => { el with lineHeightPx := v }))).1 = none ∧
    (getLineHeight e (invalidateLineHeightCache e (updateElem (getLineHeight e s).2 e
        (fun el => { el with lineHeightPx := v })))).1 = v := by
  have h1 := getLineHeight_miss hnc
  refine ⟨?_, ?_, ?_, ?_⟩
  · rw [h1]
    exact hun
  · rw [h1]
    simp only [wmLookup_wmSet_self, hun]
  · have hlk : wmLookup (updateElem (getLineHeight e s).2 e
        (fun el => { el with lineHeightPx := v })).lineHeightCache e
        = some ((s.elems e).lineHeightPx) := by
      rw [updateElem_lineHeightCache, h1]
      exact wmLookup_wmSet_self _ _ _
    rw [getLineHeight_hit hlk]
    exact hun
  · have hlk2 : wmLookup (invalidateLineHeightCache e (updateElem (getLineHeight e s).2 e
        (fun el => { el with lineHeightPx := v }))).lineHeightCache e = none := by
      unfold invalidateLineHeightCache
      exact wmLookup_wmDelete_self _ _
    rw [getLineHeight_miss hlk2]
    simp [invalidateLineHeightCache, updateElem]

/-- C4 (amended): when inserting the control fails, the error is caught and
reported on the diagnostic channel and neither the control nor the
truncation class reaches the document - but activation continues and a
partially-registered instance IS left behind: the registry gains an entry
for the target and the dataset marker is still set. -/
theorem C4_insert_failure_registers (s : SysState) (args : RMArgs) (env : ActEnv) (e : Nat)
    (ht : args.targetElement = JsTarget.elem e)
    (hp : (s.elems e).hasParent = true)
    (ho : checkOptions args = none)
    (hgate : ltJs (countLines e s).1 (resolveConfig args).linesLimit = false)
    (hni : wmLookup s.instances e = none)
    (hins : env.insertFails = true) :
    (readmore args env s).2 = ["ReadMore: Failed to insert toggle link"] ∧
    hasReadMoreInstance e (readmore args env s).1 = true ∧
    (readmore args env s).1.buttonsInDoc = s.buttonsInDoc ∧
    ((readmore args env s).1.elems e).classes = (s.elems e).classes ∧
    ((readmore args env s).1.elems e).dataMarker = true := by
  have hr := readmore_run s args env e ht hp ho hgate hni
  rw [hr]
  refine ⟨?_, ?_, ?_, ?_, ?_⟩
  · rw [materialize_log, hins]
    rfl
  · unfold hasReadMoreInstance
    rw [materialize_lookup]
    rfl
  · rw [materialize_buttonsInDoc_fail _ _ _ hins, countLines_snd,
      getLineHeight_snd_buttonsInDoc]
  · rw [materialize_classes_fail _ _ _ hins, countLines_snd, getLineHeight_snd_elems]
  · exact materialize_marker _ _ _ _

/-- A `readmore` call on a target that already has an instance (with a
line-height cache hit, so the call touches nothing): logs the duplicate
warning and leaves the state exactly unchanged. -/
theorem readmore_noop_dup (s : SysState) (args : RMArgs) (env : ActEnv) (e : Nat)
    {v : Option Int}
    (ht : args.targetElement = JsTarget.elem e)
    (hp : (s.elems e).hasParent = true)
    (ho : checkOptions args = none)
    (hhit : wmLookup s.lineHeightCache e = some v)
    (hgate : ltJs (lineCalc (s.elems e).offsetHeight v) (resolveConfig args).linesLimit = false)
    (hdup : (wmLookup s.instances e).isSome = true) :
    readmore args env s =
      (s, ["ReadMore: Element already has readmore functionality. Use destroyReadMore() first to reinitialize."]) := by
  have hcl : countLines e s = (lineCalc (s.elems e).offsetHeight v, s) := by
    unfold countLines
    rw [getLineHeight_hit hhit]
  unfold readmore
  rw [ht]
  unfold checkTarget
  simp only [hp, if_true, ho]
  rw [hcl]
  simp only [hgate, Bool.false_eq_true, if_false, hdup, if_true]

/-- C5: idempotent activation.  A first valid activation on a fresh target
creates exactly one registry entry and exactly one control in the document;
repeating the same call on the resulting state is a no-op: it returns the
state unchanged and only logs the duplicate-activation warning. -/
theorem C5_idempotent_activation (s : SysState) (args : RMArgs) (env env2 : ActEnv) (e : Nat)
    (ht : args.targetElement = JsTarget.elem e)
    (hp : (s.elems e).hasParent = true)
    (ho : checkOptions args = none)
    (hch : wmLookup s.lineHeightCache e = none)
    (hgate : ltJs (countLines e s).1 (resolveConfig args).linesLimit = false)
    (hni : wmLookup s.instances e = none)
    (hins : env.insertFails = false) :
    wmCountKey (readmore args env s).1.instances e = 1 ∧
    (readmore args env s).1.buttonsInDoc = s.nextBtnId :: s.buttonsInDoc ∧
    readmore args env2 (readmore args env s).1 =
      ((readmore args env s).1,
       ["ReadMore: Element already has readmore functionality. Use destroyReadMore() first to reinitialize."]) := by
  have hr := readmore_run s args env e ht hp ho hgate hni
  have hlh := getLineHeight_miss hch
  refine ⟨?_, ?_, ?_⟩
  · rw [hr, materialize_instances, countLines_snd, getLineHeight_snd_instances]
    exact wmCountKey_wmSet_of_none _ hni
  · rw [hr, materialize_buttonsInDoc_ok _ _ _ hins, countLines_snd,
      getLineHeight_snd_nextBtnId, getLineHeight_snd_buttonsInDoc]
  · have h1p : ((readmore args env s).1.elems e).hasParent = true := by
      rw [hr, materialize_hasParent, countLines_snd, getLineHeight_snd_elems]
      exact hp
    have h1cache : wmLookup (readmore args env s).1.lineHeightCache e
        = some ((s.elems e).lineHeightPx) := by
      rw [hr, materialize_lineHeightCache, countLines_snd, hlh]
      exact wmLookup_wmSet_self _ _ _
    have h1off : ((readmore args env s).1.elems e).offsetHeight
        = (s.elems e).offsetHeight := by
      rw [hr, materialize_offsetHeight, countLines_snd, getLineHeight_snd_elems]
    have hgate' : ltJs (lineCalc ((readmore args env s).1.elems e).offsetHeight
        ((s.elems e).lineHeightPx)) (resolveConfig args).linesLimit = false := by
      rw [h1off]
      rw [countLines_fst, hlh] at hgate
      exact hgate
    have hdup : (wmLookup (readmore args env s).1.instances e).isSome = true := by
      rw [hr, materialize_lookup]
      rfl
    exact readmore_noop_dup _ args env2 e ht h1p ho h1cache hgate' hdup

/-! ### C6: toggle round trip -/

theorem classListToggle_remove {c : String} {bs : List String}
    (h : hasClass c bs = false) : classListToggle c (bs ++ [c]) = bs := by
  unfold classListToggle
  rw [hasClass_append, hasClass_single_self]
  simp only [Bool.or_true, if_true]
  rw [classListRemove_append, classListRemove_of_not_has h]
  simp [classListRemove]

theorem classListToggle_add {c : String} {bs : List String}
    (h : hasClass c bs = false) : classListToggle c bs = bs ++ [c] := by
  unfold classListToggle classListAdd
  simp [h]

/-- C6: the toggle is a round trip.  From the initial collapsed state
created by activation (truncation class present at the end of the class
list, `aria-expanded="false"`, label = `READ_MORE_LABEL`, which is
`"Read more..."` under default labels), one `toggleContent` yields the
expanded state (class removed, `aria-expanded="true"`, label
`"Read less"`), a second restores exactly the initial state, and every even
number of toggles is the identity. -/
theorem C6_toggle_round_trip (cfg : InstanceConfig) (tb : ToggleDom) (bs : List String)
    (hcls : tb.targetClasses = bs ++ [cfg.targetClass])
    (hnb : hasClass cfg.targetClass bs = false)
    (haria : tb.button.ariaExpanded = "false")
    (hlab : tb.button.label = cfg.readMoreLabel)
    (hml : cfg.readMoreLabel = "Read more...")
    (hll : cfg.readLessLabel = "Read less") :
    tb.button.label = "Read more..." ∧
    (toggleContent cfg tb).targetClasses = bs ∧
    (toggleContent cfg tb).button.ariaExpanded = "true" ∧
    (toggleContent cfg tb).button.label = "Read less" ∧
    toggleContent cfg (toggleContent cfg tb) = tb ∧
    ∀ n : Nat, (toggleContent cfg)^[2 * n] tb = tb := by
  obtain ⟨tcs, btn⟩ := tb
  obtain ⟨bid, bty, blab, bcls, baria, bac, brole⟩ := btn
  dsimp only at hcls haria hlab
  subst hcls haria hlab
  have hc2 : hasClass cfg.targetClass (bs ++ [cfg.targetClass]) = true := by
    rw [hasClass_append, hasClass_single_self]
    simp
  have t1 : toggleContent cfg
      ⟨bs ++ [cfg.targetClass], ⟨bid, bty, cfg.readMoreLabel, bcls, "false", bac, brole⟩⟩ =
      ⟨bs, ⟨bid, bty, cfg.readLessLabel, bcls, "true", bac, brole⟩⟩ := by
    unfold toggleContent
    dsimp only
    rw [classListToggle_remove hnb]
    simp [hnb]
  have t2 : toggleContent cfg
      ⟨bs, ⟨bid, bty, cfg.readLessLabel, bcls, "true", bac, brole⟩⟩ =
      ⟨bs ++ [cfg.targetClass], ⟨bid, bty, cfg.readMoreLabel, bcls, "false", bac, brole⟩⟩ := by
    unfold toggleContent
    dsimp only
    rw [classListToggle_add hnb]
    simp [hc2]
  refine ⟨hml, ?_, ?_, ?_, ?_, ?_⟩
  · rw [t1]
  · rw [t1]
  · rw [t1, hll]
  · rw [t1, t2]
  · intro n
    induction n with
    | zero => rfl
    | succ m ih =>
      have h2 : 2 * (m + 1) = 2 * m + 1 + 1 := by ring
      rw [h2, Function.iterate_succ_apply', Function.iterate_succ_apply', ih, t1, t2]

/-! ### C7: destroy completeness -/

/-- C7: destroy is complete and reports correctly.  For a registered (live)
instance, `destroyReadMore` returns `true`, the registry no longer has or
returns an instance, the control node is detached from the document, the
truncation class and dataset marker are gone from the target, and the
target's line-height cache entry is invalidated.  For an element with no
registered instance, it returns `false` (with the warning diagnostic) and
changes nothing. -/
theorem C7_destroy_complete (s : SysState) (e : Nat) :
    (∀ inst : ReadMoreInstance, wmLookup s.instances e = some inst →
      inst.isDestroyed = false → inst.target = e →
      (destroyReadMore (JsTarget.elem e) s).2.1 = true ∧
      hasReadMoreInstance e (destroyReadMore (JsTarget.elem e) s).1 = false ∧
      getReadMoreInstance e (destroyReadMore (JsTarget.elem e) s).1 = none ∧
      hasNode inst.button.id (destroyReadMore (JsTarget.elem e) s).1.buttonsInDoc = false ∧
      hasClass inst.config.targetClass
        ((destroyReadMore (JsTarget.elem e) s).1.elems e).classes = false ∧
      ((destroyReadMore (JsTarget.elem e) s).1.elems e).dataMarker = false ∧
      isLineHeightCached e (destroyReadMore (JsTarget.elem e) s).1 = false) ∧
    (wmLookup s.instances e = none →
      destroyReadMore (JsTarget.elem e) s =
        (s, false, ["ReadMore: No readmore instance found for the given element"])) := by
  constructor
  · intro inst hlk hnd hte
    unfold destroyReadMore
    dsimp only
    rw [hlk]
    unfold ReadMoreInstance.destroy
    simp only [hnd, Bool.false_eq_true, if_false, weakMapSizeEqZero, hte]
    refine ⟨trivial, ?_, ?_, ?_, ?_, ?_, ?_⟩
    · simp [hasReadMoreInstance, wmLookup_wmDelete_self]
    · simp [getReadMoreInstance, wmLookup_wmDelete_self]
    · by_cases hbn : hasNode inst.button.id s.buttonsInDoc = true
      · rw [if_pos hbn]
        simpa [invalidateLineHeightCache, updateElem] using
          hasNode_removeNode_self inst.button.id s.buttonsInDoc
      · rw [if_neg hbn]
        simpa [invalidateLineHeightCache, updateElem] using hbn
    · simp only [invalidateLineHeightCache, updateElem_elems_self]
      simp [hasClass_classListRemove_self]
    · simp only [invalidateLineHeightCache, updateElem_elems_self]
    · simp [isLineHeightCached, invalidateLineHeightCache, wmLookup_wmDelete_self]
  · intro h
    unfold destroyReadMore
    dsimp only
    rw [h]

/-! ### C9: validation fails fast with zero side effects -/

theorem checkOptions_none {args : RMArgs} (h : checkOptions args = none) :
    badLinesLimit args.linesLimit = false ∧ isNonStr args.readMoreLabel = false ∧
    isNonStr args.readLessLabel = false ∧ isNonStr args.targetClass = false ∧
    isNonStr args.linkClass = false := by
  unfold checkOptions checkStrings at h
  split_ifs at h
  all_goals simp_all

theorem checkOptions_some_of_flag (args : RMArgs)
    (h : badLinesLimit args.linesLimit = true ∨ isNonStr args.readMoreLabel = true ∨
      isNonStr args.readLessLabel = true ∨ isNonStr args.targetClass = true ∨
      isNonStr args.linkClass = true) :
    ∃ msg, checkOptions args = some msg := by
  cases hco : checkOptions args with
  | some m => exact ⟨m, rfl⟩
  | none =>
    exfalso
    obtain ⟨h0, h1, h2, h3, h4⟩ := checkOptions_none hco
    rcases h with h | h | h | h | h <;> simp_all

theorem readmore_options_reject (s : SysState) (args : RMArgs) (env : ActEnv)
    (hopt : ∃ msg, checkOptions args = some msg) :
    ∃ msg, readmore args env s = (s, [msg]) := by
  obtain ⟨m, hm⟩ := hopt
  unfold readmore
  cases hT : args.targetElement with
  | nullish => exact ⟨_, rfl⟩
  | nonElement => exact ⟨_, rfl⟩
  | elem e =>
    unfold checkTarget
    by_cases hp : (s.elems e).hasParent
    · refine ⟨m, ?_⟩
      simp [hp, hm]
    · refine ⟨"ReadMore: targetElement must have a parent node to insert the toggle link", ?_⟩
      simp [hp]

/-- C9: every invalid activation - missing/null target, non-element target,
orphaned target, `linesLimit` not a positive integer (zero, negative,
non-integer, non-numeric), or a non-string label/class option - reports
exactly one configuration-error diagnostic and returns with the state
exactly unchanged: no registry entry, no DOM mutation. -/
theorem C9_validation_rejects (s : SysState) (args : RMArgs) (env : ActEnv)
    (h : args.targetElement = JsTarget.nullish ∨
      args.targetElement = JsTarget.nonElement ∨
      (∃ e, args.targetElement = JsTarget.elem e ∧ (s.elems e).hasParent = false) ∨
      badLinesLimit args.linesLimit = true ∨
      isNonStr args.readMoreLabel = true ∨ isNonStr args.readLessLabel = true ∨
      isNonStr args.targetClass = true ∨ isNonStr args.linkClass = true) :
    (readmore args env s).1 = s ∧ (readmore args env s).2.length = 1 := by
  have hmsg : ∃ msg, readmore args env s = (s, [msg]) := by
    rcases h with h | h | ⟨e, hT, hpn⟩ | h | h | h | h | h
    · refine ⟨"ReadMore: targetElement is required and cannot be null or undefined", ?_⟩
      unfold readmore
      rw [h]
      rfl
    · refine ⟨"ReadMore: targetElement must be a valid HTMLElement", ?_⟩
      unfold readmore
      rw [h]
      rfl
    · refine ⟨"ReadMore: targetElement must have a parent node to insert the toggle link", ?_⟩
      unfold readmore
      rw [hT]
      unfold checkTarget
      simp [hpn]
    · exact readmore_options_reject s args env (checkOptions_some_of_flag args (Or.inl h))
    · exact readmore_options_reject s args env
        (checkOptions_some_of_flag args (Or.inr (Or.inl h)))
    · exact readmore_options_reject s args env
        (checkOptions_some_of_flag args (Or.inr (Or.inr (Or.inl h))))
    · exact readmore_options_reject s args env
        (checkOptions_some_of_flag args (Or.inr (Or.inr (Or.inr (Or.inl h)))))
    · exact readmore_options_reject s args env
        (checkOptions_some_of_flag args (Or.inr (Or.inr (Or.inr (Or.inr h)))))
  obtain ⟨m, hm⟩ := hmsg
  rw [hm]
  exact ⟨rfl, rfl⟩

/-! ### C10: empty-string options resolve to the defaults -/

/-- A `readmore` call with every label/class option explicitly the empty
string. -/
def argsEmptyStrings (e : Nat) : RMArgs :=
  { targetElement := .elem e, readMoreLabel := .str "", readLessLabel := .str "",
    targetClass := .str "", linkClass := .str "", linesLimit := .undef }

/-- C10: empty-string label/class options pass validation (they are
strings) but resolve to the documented defaults (`"" || default`), so the
resolved configuration is exactly the all-defaults one and the created
control is labeled `"Read more..."`. -/
theorem C10_empty_string_options_default (s : SysState) (env : ActEnv) (e : Nat)
    (hp : (s.elems e).hasParent = true)
    (hgate : ltJs (countLines e s).1 8 = false)
    (hni : wmLookup s.instances e = none) :
    checkOptions (argsEmptyStrings e) = none ∧
    resolveConfig (argsEmptyStrings e) = resolveConfig (defaultArgsFor e) ∧
    ∃ inst, getReadMoreInstance e (readmore (argsEmptyStrings e) env s).1 = some inst ∧
      inst.button.label = "Read more..." ∧
      inst.config =
        { targetClass := "read-more-target", linkClass := "read-more-link",
          readMoreLabel := "Read more...", readLessLabel := "Read less",
          linesLimit := 8 } := by
  refine ⟨rfl, by rfl, ?_⟩
  have hr := readmore_run s (argsEmptyStrings e) env e rfl hp rfl hgate hni
  unfold getReadMoreInstance
  rw [hr, materialize_lookup]
  exact ⟨_, rfl, rfl, rfl⟩

/-! ### C8: style dedup -/

theorem addStyle_fresh {k : String} (b : String) {s : SysState}
    (h1 : hasClass k s.cssCache = false) (h2 : numKey k s.headStyles = 0) :
    hasClass k (addStyle b k s).cssCache = true ∧
    numKey k (addStyle b k s).headStyles = 1 := by
  unfold addStyle
  simp only [h1, Bool.false_eq_true, if_false, anyKey_eq_false_of_numKey h2]
  constructor
  · simp [hasClass]
  · rw [numKey_append]
    simp [numKey, h2]

theorem styleOnce_addStyle {k : String} (b k' : String) {s : SysState}
    (h1 : hasClass k s.cssCache = true) (h2 : numKey k s.headStyles = 1) :
    hasClass k (addStyle b k' s).cssCache = true ∧
    numKey k (addStyle b k' s).headStyles = 1 := by
  by_cases hk : k' = k
  · subst hk
    rw [addStyle_cached b h1]
    exact ⟨h1, h2⟩
  · refine ⟨hasClass_addStyle_mono b k' h1, ?_⟩
    rw [numKey_addStyle_of_ne b s hk]
    exact h2

theorem readmore_state_cases (args : RMArgs) (env : ActEnv) (s : SysState) :
    (readmore args env s).1 = s ∨
    (∃ e, args.targetElement = JsTarget.elem e ∧
      (readmore args env s).1 = (countLines e s).2) ∨
    (∃ e, args.targetElement = JsTarget.elem e ∧
      (readmore args env s).1 =
        (materialize (resolveConfig args) e env (countLines e s).2).1) := by
  unfold readmore
  cases hT : args.targetElement with
  | nullish => exact Or.inl rfl
  | nonElement => exact Or.inl rfl
  | elem e =>
    unfold checkTarget
    by_cases hp : (s.elems e).hasParent
    · simp only [hp, if_true]
      cases hco : checkOptions args with
      | some m => exact Or.inl rfl
      | none =>
        by_cases hg : ltJs (countLines e s).1 (resolveConfig args).linesLimit = true
        · rw [if_pos hg]
          exact Or.inr (Or.inl ⟨e, rfl, rfl⟩)
        · rw [if_neg hg]
          by_cases hd : (wmLookup (countLines e s).2.instances e).isSome = true
          · rw [if_pos hd]
            exact Or.inr (Or.inl ⟨e, rfl, rfl⟩)
          · rw [if_neg hd]
            exact Or.inr (Or.inr ⟨e, rfl, rfl⟩)
    · simp only [hp, if_false]
      exact Or.inl rfl

theorem readmore_preserves_styleOnce (args : RMArgs) (env : ActEnv) {s : SysState}
    {k : String}
    (h1 : hasClass k s.cssCache = true) (h2 : numKey k s.headStyles = 1) :
    hasClass k (readmore args env s).1.cssCache = true ∧
    numKey k (readmore args env s).1.headStyles = 1 := by
  rcases readmore_state_cases args env s with h | ⟨e, _, h⟩ | ⟨e, _, h⟩
  · rw [h]
    exact ⟨h1, h2⟩
  · rw [h, countLines_snd, getLineHeight_snd_cssCache, getLineHeight_snd_headStyles]
    exact ⟨h1, h2⟩
  · rw [h, materialize_cssCache, materialize_headStyles, countLines_snd]
    have h1' : hasClass k (getLineHeight e s).2.cssCache = true := by
      rw [getLineHeight_snd_cssCache]
      exact h1
    have h2' : numKey k (getLineHeight e s).2.headStyles = 1 := by
      rw [getLineHeight_snd_headStyles]
      exact h2
    exact styleOnce_addStyle _ _ h1' h2'

theorem foldl_preserves_styleOnce (acts : List (RMArgs × ActEnv)) {s : SysState}
    {k : String}
    (h1 : hasClass k s.cssCache = true) (h2 : numKey k s.headStyles = 1) :
    hasClass k (acts.foldl (fun st a => (readmore a.1 a.2 st).1) s).cssCache = true ∧
    numKey k (acts.foldl (fun st a => (readmore a.1 a.2 st).1) s).headStyles = 1 := by
  induction acts generalizing s with
  | nil => exact ⟨h1, h2⟩
  | cons a t ih =>
    simp only [List.foldl_cons]
    obtain ⟨g1, g2⟩ := readmore_preserves_styleOnce a.1 a.2 h1 h2
    exact ih g1 g2

/-- C8: style materialization is deduplicated.  `addStyle` is idempotent
per fingerprint (a no-op when the fingerprint is in the in-memory cache; no
new fragment when one is already detectable in the document); consequently,
starting from a state with no fragment for the fingerprint, a first
materializing activation followed by any further activations sharing the
same `(targetStyleClass, lineLimit)` pair leaves exactly one style fragment
for that fingerprint in the document, and the fingerprint cached. -/
theorem C8_style_dedup (s : SysState) (args : RMArgs) (env : ActEnv) (e : Nat)
    (acts : List (RMArgs × ActEnv)) (k : String)
    (hk : k = cssCacheKey (resolveConfig args).targetClass (resolveConfig args).linesLimit)
    (hshare : ∀ a ∈ acts,
      cssCacheKey (resolveConfig a.1).targetClass (resolveConfig a.1).linesLimit = k)
    (ht : args.targetElement = JsTarget.elem e)
    (hp : (s.elems e).hasParent = true)
    (ho : checkOptions args = none)
    (hgate : ltJs (countLines e s).1 (resolveConfig args).linesLimit = false)
    (hni : wmLookup s.instances e = none)
    (hclean1 : hasClass k s.cssCache = false)
    (hclean2 : numKey k s.headStyles = 0) :
    (∀ b (s' : SysState), hasClass k s'.cssCache = true → addStyle b k s' = s') ∧
    (∀ b (s' : SysState), hasClass k s'.cssCache = false →
      anyKey k s'.headStyles = true → (addStyle b k s').headStyles = s'.headStyles) ∧
    numKey k (acts.foldl (fun st a => (readmore a.1 a.2 st).1)
      (readmore args env s).1).headStyles = 1 ∧
    isStyleCached k (acts.foldl (fun st a => (readmore a.1 a.2 st).1)
      (readmore args env s).1) = true := by
  have hr := readmore_run s args env e ht hp ho hgate hni
  have hstart : hasClass k (readmore args env s).1.cssCache = true ∧
      numKey k (readmore args env s).1.headStyles = 1 := by
    rw [hr, materialize_cssCache, materialize_headStyles, countLines_snd]
    subst hk
    refine addStyle_fresh _ ?_ ?_
    · rw [getLineHeight_snd_cssCache]
      exact hclean1
    · rw [getLineHeight_snd_headStyles]
      exact hclean2
  obtain ⟨hA, hB⟩ := foldl_preserves_styleOnce acts hstart.1 hstart.2
  refine ⟨?_, ?_, hB, hA⟩
  · intro b s' h
    exact addStyle_cached b h
  · intro b s' hA' hB'
    unfold addStyle
    simp [hA', hB']

/-! ### Witnesses -/

/-- Witness for C2: the amended behaviour at a concrete unknown-measurement
activation. -/
theorem C2_unknown_estimate_proceeds_witness :
    hasReadMoreInstance 0 (readmore (defaultArgsFor 0) okEnv unknownState).1 = true ∧
    isStyleCached
      (cssCacheKey (resolveConfig (defaultArgsFor 0)).targetClass
        (resolveConfig (defaultArgsFor 0)).linesLimit)
      (readmore (defaultArgsFor 0) okEnv unknownState).1 = true ∧
    (readmore (defaultArgsFor 0) okEnv unknownState).1.buttonsInDoc =
      unknownState.nextBtnId :: unknownState.buttonsInDoc ∧
    hasClass (resolveConfig (defaultArgsFor 0)).targetClass
      ((readmore (defaultArgsFor 0) okEnv unknownState).1.elems 0).classes = true ∧
    ((readmore (defaultArgsFor 0) okEnv unknownState).1.elems 0).dataMarker = true :=
  C2_unknown_estimate_proceeds unknownState (defaultArgsFor 0) okEnv 0 rfl rfl rfl rfl rfl rfl

/-- Witness for C3: the amended caching behaviour at a concrete element. -/
theorem C3_unknown_is_cached_witness :
    (getLineHeight 0 unknownState).1 = none ∧
    wmLookup (getLineHeight 0 unknownState).2.lineHeightCache 0 = some none ∧
    (getLineHeight 0 (updateElem (getLineHeight 0 unknownState).2 0
        (fun el => { el with lineHeightPx := some 16 }))).1 = none ∧
    (getLineHeight 0 (invalidateLineHeightCache 0 (updateElem (getLineHeight 0 unknownState).2 0
        (fun el => { el with lineHeightPx := some 16 })))).1 = some 16 :=
  C3_unknown_is_cached unknownState 0 (some 16) rfl rfl

/-- Witness for C4: the amended insertion-failure behaviour at a concrete
activation. -/
theorem C4_insert_failure_registers_witness :
    (readmore (defaultArgsFor 0) failEnv measuredState).2 =
      ["ReadMore: Failed to insert toggle link"] ∧
    hasReadMoreInstance 0 (readmore (defaultArgsFor 0) failEnv measuredState).1 = true ∧
    (readmore (defaultArgsFor 0) failEnv measuredState).1.buttonsInDoc =
      measuredState.buttonsInDoc ∧
    ((readmore (defaultArgsFor 0) failEnv measuredState).1.elems 0).classes =
      (measuredState.elems 0).classes ∧
    ((readmore (defaultArgsFor 0) failEnv measuredState).1.elems 0).dataMarker = true :=
  C4_insert_failure_registers measuredState (defaultArgsFor 0) failEnv 0
    rfl rfl rfl rfl rfl rfl

/-- Witness for C5: idempotent activation at a concrete element. -/
theorem C5_idempotent_activation_witness :
    wmCountKey (readmore (defaultArgsFor 0) okEnv measuredState).1.instances 0 = 1 ∧
    (readmore (defaultArgsFor 0) okEnv measuredState).1.buttonsInDoc =
      measuredState.nextBtnId :: measuredState.buttonsInDoc ∧
    readmore (defaultArgsFor 0) okEnv (readmore (defaultArgsFor 0) okEnv measuredState).1 =
      ((readmore (defaultArgsFor 0) okEnv measuredState).1,
       ["ReadMore: Element already has readmore functionality. Use destroyReadMore() first to reinitialize."]) :=
  C5_idempotent_activation measuredState (defaultArgsFor 0) okEnv okEnv 0
    rfl rfl rfl rfl rfl rfl rfl

/-- Concrete toggle fixtures for the C6 witness: the all-defaults config
and the collapsed state created by activation. -/
def cfgD : InstanceConfig := resolveConfig (defaultArgsFor 0)

/-- A collapsed target/button pair as activation leaves it. -/
def tbD : ToggleDom :=
  ⟨["x", "read-more-target"],
   ⟨0, "button", "Read more...", ["read-more-link"], "false", "content", "button"⟩⟩

/-- Witness for C6: the round trip at a concrete collapsed state, with the
even-iterate fact instantiated at three round trips. -/
theorem C6_toggle_round_trip_witness :
    (toggleContent cfgD tbD).targetClasses = ["x"] ∧
    (toggleContent cfgD tbD).button.ariaExpanded = "true" ∧
    (toggleContent cfgD tbD).button.label = "Read less" ∧
    toggleContent cfgD (toggleContent cfgD tbD) = tbD ∧
    (toggleContent cfgD)^[2 * 3] tbD = tbD := by
  have h := C6_toggle_round_trip cfgD tbD ["x"] rfl (by decide) rfl rfl rfl rfl
  exact ⟨h.2.1, h.2.2.1, h.2.2.2.1, h.2.2.2.2.1, h.2.2.2.2.2 3⟩

/-- A live registered instance for the C7 witness. -/
def instW : ReadMoreInstance :=
  { target := 0,
    button := ⟨5, "button", "Read more...", ["read-more-link"], "false", "content", "button"⟩,
    config := resolveConfig (defaultArgsFor 0),
    listeners := ["click", "keydown"],
    isDestroyed := false }

/-- A page with `instW` registered on element 0 for the C7 witness. -/
def stateW : SysState :=
  { elems := fun _ => { baseElem with classes := ["read-more-target"], dataMarker := true },
    instances := [(0, instW)],
    cssCache := [cssCacheKey "read-more-target" 8],
    headStyles := [(cssCacheKey "read-more-target" 8, "x")],
    lineHeightCache := [(0, some 16)],
    buttonsInDoc := [5],
    nextBtnId := 6 }

/-- Witness for C7: destroy completeness on a concrete registered instance,
and the `false` return on an element with no instance. -/
theorem C7_destroy_complete_witness :
    ((destroyReadMore (JsTarget.elem 0) stateW).2.1 = true ∧
     hasReadMoreInstance 0 (destroyReadMore (JsTarget.elem 0) stateW).1 = false ∧
     getReadMoreInstance 0 (destroyReadMore (JsTarget.elem 0) stateW).1 = none ∧
     hasNode instW.button.id (destroyReadMore (JsTarget.elem 0) stateW).1.buttonsInDoc = false ∧
     hasClass instW.config.targetClass
       ((destroyReadMore (JsTarget.elem 0) stateW).1.elems 0).classes = false ∧
     ((destroyReadMore (JsTarget.elem 0) stateW).1.elems 0).dataMarker = false ∧
     isLineHeightCached 0 (destroyReadMore (JsTarget.elem 0) stateW).1 = false) ∧
    destroyReadMore (JsTarget.elem 1) measuredState =
      (measuredState, false, ["ReadMore: No readmore instance found for the given element"]) :=
  ⟨(C7_destroy_complete stateW 0).1 instW rfl rfl rfl,
   (C7_destroy_complete measuredState 1).2 rfl⟩

/-- Witness for C8: two activations sharing the default
`(targetStyleClass, lineLimit)` pair on two elements leave exactly one
materialized style fragment, and its fingerprint cached. -/
theorem C8_style_dedup_witness :
    numKey (cssCacheKey "read-more-target" 8)
      ([(defaultArgsFor 1, okEnv)].foldl (fun st a => (readmore a.1 a.2 st).1)
        (readmore (defaultArgsFor 0) okEnv measuredState).1).headStyles = 1 ∧
    isStyleCached (cssCacheKey "read-more-target" 8)
      ([(defaultArgsFor 1, okEnv)].foldl (fun st a => (readmore a.1 a.2 st).1)
        (readmore (defaultArgsFor 0) okEnv measuredState).1) = true := by
  have h := C8_style_dedup measuredState (defaultArgsFor 0) okEnv 0
    [(defaultArgsFor 1, okEnv)] (cssCacheKey "read-more-target" 8)
    rfl (by decide) rfl rfl rfl rfl rfl rfl rfl
  exact ⟨h.2.2.1, h.2.2.2⟩

/-- A `readmore` call with a null target for the C9 witness. -/
def argsNull : RMArgs :=
  { targetElement := .nullish, readMoreLabel := .undef, readLessLabel := .undef,
    targetClass := .undef, linkClass := .undef, linesLimit := .undef }

/-- Witness for C9: a null-target activation reports one diagnostic and
leaves the state unchanged. -/
theorem C9_validation_rejects_witness :
    (readmore argsNull okEnv measuredState).1 = measuredState ∧
    (readmore argsNull okEnv measuredState).2.length = 1 :=
  C9_validation_rejects measuredState argsNull okEnv (Or.inl rfl)

/-- Witness for C10: at a concrete element, the empty-string options pass
validation, resolve to the defaults, and the registered instance's control
is labeled with the default label. -/
theorem C10_empty_string_options_default_witness :
    checkOptions (argsEmptyStrings 0) = none ∧
    resolveConfig (argsEmptyStrings 0) = resolveConfig (defaultArgsFor 0) ∧
    (getReadMoreInstance 0 (readmore (argsEmptyStrings 0) okEnv measuredState).1).isSome
      = true := by
  have h := C10_empty_string_options_default measuredState okEnv 0 rfl rfl rfl
  refine ⟨h.1, h.2.1, ?_⟩
  obtain ⟨inst, hi, _, _⟩ := h.2.2
  rw [hi]
  rfl
